import Mathlib

/-!
Shallow embedding of `scripts/enhanced-monitoring.js` (the session
health-detection and auto-recovery engine).

External effects (`execSync` results, `fs.existsSync`, `process.chdir`
success, tmux capture output, the MCP oracle) are supplied by an
environment record `Env`; each field holds the (already trimmed) result
an `exec` call would return, with `none` standing for the `null` that
the `exec` wrapper returns when the underlying command fails
(lines 30-36 of the source).  JavaScript string truthiness (null and ""
are falsy) is modelled by `jsTruthyStr` / `jsTruthyOpt`.
-/

namespace EnhancedMonitoring

/-- JavaScript truthiness of a string: the empty string is falsy. -/
def jsTruthyStr (s : String) : Bool := !s.data.isEmpty

/-- JavaScript truthiness of a nullable string: `null` and `""` are falsy. -/
def jsTruthyOpt : Option String → Bool
  | none => false
  | some s => jsTruthyStr s

/-- Does `hay` start with `pat`? (character-list version). -/
def charsStartWith : List Char → List Char → Bool
  | [], _ => true
  | _ :: _, [] => false
  | p :: ps, c :: cs => (p == c) && charsStartWith ps cs

/-- Does `hay` contain `pat` as a contiguous substring? -/
def charsContain (hay pat : List Char) : Bool :=
  match hay with
  | [] => charsStartWith pat []
  | c :: t => charsStartWith pat (c :: t) || charsContain t pat

/-- JavaScript `s.includes(pat)`. -/
def jsIncludes (s pat : String) : Bool := charsContain s.data pat.data

/-- Split a character list on a single separator character
(JavaScript `split` semantics: `"" → [""]`, trailing separator keeps
the empty tail). -/
def splitChar (sep : Char) : List Char → List (List Char)
  | [] => [[]]
  | c :: cs =>
    if c == sep then [] :: splitChar sep cs
    else
      match splitChar sep cs with
      | [] => [[c]]
      | h :: t => (c :: h) :: t

/-- JavaScript `s.split(sep)` for a one-character separator (the source
only ever splits on `"\n"`, `":"` and `"|"`). -/
def jsSplit (s : String) (sep : Char) : List String :=
  (splitChar sep s.data).map String.mk

/-- JavaScript `l.slice(-n)`: the last `n` elements. -/
def lastN (n : Nat) (l : List α) : List α := l.drop (l.length - n)

/-- JavaScript `l.join(sep)`. -/
def joinWith (sep : String) : List String → String
  | [] => ""
  | [s] => s
  | s :: rest => s ++ sep ++ joinWith sep rest

/-- The ordered stall-signature list (source lines 114-125). -/
def stuckPatterns : List String :=
  ["Do you want to proceed?",
   "Press any key to continue",
   "Waiting for user input",
   "Type \"y\" to confirm",
   "Continue? (y/n)",
   "Approval required",
   "Enter to continue",
   "Would you like to",
   "Please confirm",
   "Proceed with"]

/-- Loop condition of source line 143:
`screenContent && screenContent.includes(pattern)`. -/
def matchesContent (content : Option String) (p : String) : Bool :=
  jsTruthyOpt content && jsIncludes (content.getD "") p

/-- The inner pattern loop of `detectStuckPrompts` (source lines
142-151): the first pattern in order whose text occurs in the captured
content, if any; the `break` makes the first match win. -/
def firstStuckPattern (patterns : List String) (content : Option String) :
    Option String :=
  patterns.find? (matchesContent content)

/-- One element of the `stuckSessions` array built at source
lines 144-148. -/
structure StuckSession where
  session : String
  pattern : String
  content : String
deriving DecidableEq, Repr

/-- One value of the `progressData` map of `checkGitProgress`: either
the full per-project record of source lines 84-90 (no `error` key) or
the `{ error }` record of line 101.  `latestCommit` is the
`|`-separated field list (or `null`), `lastActivity` is field 2 of that
split (`undefined`, i.e. `none`, when absent). -/
inductive GitEntry where
  | ok (path : String) (latestCommit : Option (List String))
      (uncommittedChanges : Nat) (currentBranch : String)
      (lastActivity : Option String)
  | err
deriving DecidableEq, Repr

/-- Environment of external effects for one run.  Git command results
are keyed by the project path, which is exact because the three git
commands only run right after a successful `process.chdir(projectPath)`.
`recapture s k` is the `tmux capture-pane` result for session `s` on
recovery attempt `k`. -/
structure Env where
  mcpScriptExists : Bool
  mcpExec : String → Option String
  projectPaths : List (String × String)
  pathExists : String → Bool
  chdirOk : String → Bool
  gitLog : String → Option String
  gitStatus : String → Option String
  gitBranch : String → Option String
  listSessions : Option String
  capture : String → Option String
  recapture : String → Nat → Option String
  initialCwd : String

/-- `runMCPMonitoring` (source lines 38-66): success iff the script
exists and the command returned truthy output. -/
def runMCPMonitoring (env : Env) (mode : String) : Bool :=
  if env.mcpScriptExists then
    jsTruthyOpt (env.mcpExec (if mode == "quick" then "quick" else "detailed"))
  else false

/-- `uncommittedChanges ? uncommittedChanges.split('\n').length : 0`
(source line 87). -/
def pendingCount : Option String → Nat
  | none => 0
  | some s => if jsTruthyStr s then (jsSplit s '\n').length else 0

/-- `branchInfo || 'unknown'` (source line 88). -/
def branchOr : Option String → String
  | none => "unknown"
  | some s => if jsTruthyStr s then s else "unknown"

/-- The per-project record built at source lines 84-90 after a
successful chdir, together with the destructuring log of lines 92-97:
when the commit line splits into fewer than 4 fields,
`message.substring` throws and the catch at line 99 replaces the record
by `{ error }`. -/
def gitOkEntry (env : Env) (name path : String) : String × GitEntry :=
  let latestCommit := env.gitLog path
  let parts :=
    if jsTruthyOpt latestCommit then some (jsSplit (latestCommit.getD "") '|')
    else none
  let entry :=
    GitEntry.ok path parts
      (pendingCount (env.gitStatus path))
      (branchOr (env.gitBranch path))
      (match parts with
       | some ps => ps.get? 2
       | none => some "unknown")
  match parts with
  | some ps => if ps.length < 4 then (name, GitEntry.err) else (name, entry)
  | none => (name, entry)

/-- The per-project result of one iteration of the `checkGitProgress`
loop: `none` when the path does not exist (the project is skipped with
only a log line, source lines 103-105), an `err` entry when
`process.chdir` throws (caught at line 99), otherwise `gitOkEntry`. -/
def checkGitEntry (env : Env) (name path : String) :
    Option (String × GitEntry) :=
  if env.pathExists path then
    if env.chdirOk path then some (gitOkEntry env name path)
    else some (name, GitEntry.err)
  else none

/-- The loop of `checkGitProgress` (source lines 74-106), threading the
process working directory: `process.chdir(projectPath)` at line 77
moves it to each existing project path and it is never restored. -/
def checkGitAux (env : Env) : List (String × String) → String →
    List (String × GitEntry) × String
  | [], cwd => ([], cwd)
  | (name, path) :: rest, cwd =>
    if env.pathExists path then
      if env.chdirOk path then
        let r := checkGitAux env rest path
        (gitOkEntry env name path :: r.1, r.2)
      else
        let r := checkGitAux env rest cwd
        ((name, GitEntry.err) :: r.1, r.2)
    else checkGitAux env rest cwd

/-- `checkGitProgress` (source lines 68-109): returns the ordered
`progressData` entries and the final process working directory. -/
def checkGitProgress (env : Env) : List (String × GitEntry) × String :=
  checkGitAux env env.projectPaths env.initialCwd

/-- `detectStuckPrompts` (source lines 111-177): when
`tmux list-sessions` returns truthy output, split it into lines, take
the text before the first `:` as the session name, capture that pane,
and record the session with the first matching stall pattern (if any)
and the last five captured lines. -/
def detectStuckPrompts (env : Env) : List StuckSession :=
  if jsTruthyOpt env.listSessions then
    (jsSplit (env.listSessions.getD "") '\n').filterMap (fun line =>
      let sessionName := (jsSplit line ':').headD ""
      let screenContent := env.capture sessionName
      match firstStuckPattern stuckPatterns screenContent with
      | some p =>
        some ⟨sessionName, p,
              joinWith "\n" (lastN 5 (jsSplit (screenContent.getD "") '\n'))⟩
      | none => none)
  else []

/-- The ordered fallback-input list of `autoFixStuckPrompts`
(source line 189). -/
def fixes : List String := ["y", "yes", "", "q", "exit"]

/-- Negation of the break test at source line 197: the session still
shows the original stall pattern.  A `null` or empty re-capture is NOT
still stuck (the code then logs the session as fixed and breaks). -/
def stillStuck (c : Option String) (pat : String) : Bool :=
  jsTruthyOpt c && jsIncludes (c.getD "") pat

/-- The fix loop of `autoFixStuckPrompts` (source lines 191-201) for one
session, from attempt index `k` on: returns the list of injected inputs
(one `tmux send-keys` per element) and whether the loop ended by the
break at line 199 (the code treats that as the session being fixed). -/
def runFixesAux (recap : Nat → Option String) (pat : String) :
    List String → Nat → List String × Bool
  | [], _ => ([], false)
  | f :: rest, k =>
    if stillStuck (recap k) pat then
      let r := runFixesAux recap pat rest (k + 1)
      (f :: r.1, r.2)
    else ([f], true)

/-- The full fix loop for one stuck session. -/
def runFixes (recap : Nat → Option String) (pat : String) :
    List String × Bool :=
  runFixesAux recap pat fixes 0

/-- `autoFixStuckPrompts` (source lines 179-206): each stuck session is
processed independently by its own fix loop. -/
def autoFixStuckPrompts (recap : String → Nat → Option String)
    (sts : List StuckSession) : List (String × (List String × Bool)) :=
  sts.map (fun st => (st.session, runFixes (recap st.session) st.pattern))

/-- Observable outcome of `generateMonitoringReport` (source lines
247-308): the report fields plus the recovery actions and the payload
passed to `sendTokenWasteAlert` (`none` when the alert is not invoked;
the single batched payload lists every stuck session with its
pattern, source lines 213-232). -/
structure RunResult where
  mcpSuccess : Bool
  gitProgress : List (String × GitEntry)
  finalCwd : String
  stuckSessions : List StuckSession
  recoveries : List (String × (List String × Bool))
  alert : Option (List (String × String))
  projectsChecked : Nat
  stuckPrompts : Nat
  overallHealth : String

/-- `generateMonitoringReport` (source lines 247-308).  Recovery and the
alert run only when `stuckSessions.length > 0`; `overallHealth` is
computed at line 277 from the initially detected stuck-session count and
the MCP result only. -/
def generateMonitoringReport (env : Env) : RunResult :=
  let mcpSuccess := runMCPMonitoring env "detailed"
  let git := checkGitProgress env
  let stuck := detectStuckPrompts env
  { mcpSuccess := mcpSuccess
    gitProgress := git.1
    finalCwd := git.2
    stuckSessions := stuck
    recoveries :=
      if stuck.length > 0 then autoFixStuckPrompts env.recapture stuck else []
    alert :=
      if stuck.length > 0 then
        some (stuck.map (fun s => (s.session, s.pattern)))
      else none
    projectsChecked := git.1.length
    stuckPrompts := stuck.length
    overallHealth :=
      if stuck.length == 0 && mcpSuccess then "excellent"
      else "needs-attention" }

/-- `main` (source lines 310-349): the process exit status by run mode
(`args[0] || 'full'`).  `quick` exits on MCP success, `git` always exits
0, `stuck` exits with the stuck-session count (taken mod 256 by the
operating system), every other mode falls through to the full report and
exits on `overallHealth`. -/
def mainExitCode (env : Env) (args : List String) : Nat :=
  let mode :=
    match args.head? with
    | some a => if jsTruthyStr a then a else "full"
    | none => "full"
  if mode == "quick" then
    if runMCPMonitoring env "quick" then 0 else 1
  else if mode == "git" then 0
  else if mode == "stuck" then (detectStuckPrompts env).length % 256
  else if (generateMonitoringReport env).overallHealth == "excellent" then 0
  else 1

/-- Inert base environment for concrete runs: no MCP script, no tracked
projects, no tmux sessions, every external command failing (`none`). -/
def baseEnv : Env where
  mcpScriptExists := false
  mcpExec := fun _ => none
  projectPaths := []
  pathExists := fun _ => false
  chdirOk := fun _ => false
  gitLog := fun _ => none
  gitStatus := fun _ => none
  gitBranch := fun _ => none
  listSessions := none
  capture := fun _ => none
  recapture := fun _ _ => none
  initialCwd := "/home/user"

/-- Run with no stuck sessions, a successful MCP check, and one tracked
project whose `process.chdir` fails, producing a git entry with the
error field set. -/
def envGitErrOnly : Env :=
  { baseEnv with
    mcpScriptExists := true
    mcpExec := fun _ => some "mcp data"
    projectPaths := [("proj", "/proj")]
    pathExists := fun _ => true
    chdirOk := fun _ => false }

/-- Run with one session stuck on an approval prompt that resolves on
the second fallback input, and a successful MCP check. -/
def envRecoverSecond : Env :=
  { baseEnv with
    mcpScriptExists := true
    mcpExec := fun _ => some "mcp data"
    listSessions := some "work: 1 windows"
    capture := fun _ => some "Do you want to proceed?"
    recapture := fun _ k =>
      if k == 0 then some "Do you want to proceed? y" else some "done" }

/-- Run with a single tracked project whose path does not exist. -/
def envMissingPath : Env :=
  { baseEnv with
    mcpScriptExists := true
    mcpExec := fun _ => some "mcp data"
    projectPaths := [("alpha", "/does-not-exist")] }

/-- Run with two sessions: capture of session `s` fails (`null`) and
capture of session `t` returns empty content. -/
def envCaptureFails : Env :=
  { baseEnv with
    listSessions := some "s: 1 windows\nt: 1 windows"
    capture := fun nm => if nm == "t" then some "" else none }

/-- Run with one session whose capture fails. -/
def envCaptureNull : Env :=
  { baseEnv with
    listSessions := some "s: 1 windows"
    capture := fun _ => none }

/-- Per-attempt recapture results: still stuck on attempt 0, resolved
content on every later attempt. -/
def recapSecondTry : Nat → Option String :=
  fun k => if k == 0 then some "Please confirm the change" else some "done"

/-- Per-attempt recapture results: still stuck on attempt 0, capture
failure (session vanished) from attempt 1 on. -/
def recapVanish : Nat → Option String :=
  fun k => if k == 0 then some "Proceed with installation" else none

/-- Run with one tracked project whose path exists and whose chdir
succeeds but all three git inspections fail. -/
def envGitCmdsFail : Env :=
  { baseEnv with
    projectPaths := [("a", "/a")]
    pathExists := fun _ => true
    chdirOk := fun _ => true }

/-- Run with one inspectable project (all git commands failing) and one
project with a missing path. -/
def envGitMixed : Env :=
  { baseEnv with
    projectPaths := [("a", "/a"), ("b", "/missing-b")]
    pathExists := fun s => s == "/a"
    chdirOk := fun _ => true }

/-- Run with two stuck sessions and a failing MCP check. -/
def envTwoStuck : Env :=
  { baseEnv with
    listSessions := some "s: 1 windows\nt: 1 windows"
    capture := fun _ => some "Please confirm"
    recapture := fun _ _ => some "done" }

/-- Run with two existing tracked projects followed by a missing one. -/
def envThreeProjects : Env :=
  { baseEnv with
    projectPaths := [("a", "/a"), ("b", "/b"), ("c", "/missing-c")]
    pathExists := fun s => s == "/a" || s == "/b"
    chdirOk := fun _ => true }

/-! Helper lemmas about the recovery loop, the detection loop and the
git inspection loop. -/

theorem runFixesAux_length_le (recap : Nat → Option String) (pat : String) :
    ∀ (fs : List String) (k : Nat),
      (runFixesAux recap pat fs k).1.length ≤ fs.length := by
  intro fs
  induction fs with
  | nil => intro k; simp [runFixesAux]
  | cons f rest ih =>
    intro k
    by_cases h : stillStuck (recap k) pat = true
    · simpa [runFixesAux, h] using Nat.succ_le_succ (ih (k + 1))
    · simp [runFixesAux, h]

theorem runFixesAux_resolve (recap : Nat → Option String) (pat : String) :
    ∀ (fs : List String) (k i : Nat), i < fs.length →
      (∀ j, j < i → stillStuck (recap (k + j)) pat = true) →
      stillStuck (recap (k + i)) pat = false →
      (runFixesAux recap pat fs k).1.length = i + 1 ∧
        (runFixesAux recap pat fs k).2 = true := by
  intro fs
  induction fs with
  | nil => intro k i hi; exact absurd hi (by simp)
  | cons f rest ih =>
    intro k i hi hall hres
    cases i with
    | zero =>
      have h0 : stillStuck (recap k) pat = false := by simpa using hres
      simp [runFixesAux, h0]
    | succ m =>
      have h0 : stillStuck (recap k) pat = true := by
        simpa using hall 0 (Nat.succ_pos m)
      have hall1 : ∀ j, j < m → stillStuck (recap (k + 1 + j)) pat = true := by
        intro j hj
        have h := hall (j + 1) (Nat.succ_lt_succ hj)
        have e : k + (j + 1) = k + 1 + j := by omega
        rw [e] at h
        exact h
      have hres1 : stillStuck (recap (k + 1 + m)) pat = false := by
        have e : k + (m + 1) = k + 1 + m := by omega
        rw [e] at hres
        exact hres
      have hr := ih (k + 1) m (Nat.lt_of_succ_lt_succ hi) hall1 hres1
      simp [runFixesAux, h0, hr.1, hr.2]

theorem find?_append_first {α : Type} (p : α → Bool) :
    ∀ (l₁ : List α) (a : α) (l₂ : List α), p a = true →
      (∀ q ∈ l₁, p q = false) → List.find? p (l₁ ++ a :: l₂) = some a := by
  intro l₁
  induction l₁ with
  | nil =>
    intro a l₂ ha _
    rw [List.nil_append]
    exact List.find?_cons_of_pos _ ha
  | cons q rest ih =>
    intro a l₂ ha hall
    have hq : p q = false := hall q (List.mem_cons_self q rest)
    rw [List.cons_append, List.find?_cons_of_neg _ (by simp [hq])]
    exact ih a l₂ ha (fun r hr => hall r (List.mem_cons_of_mem q hr))

theorem gitOkEntry_fst (env : Env) (name path : String) :
    (gitOkEntry env name path).1 = name := by
  by_cases hl : jsTruthyOpt (env.gitLog path) = true
  · by_cases h4 : (jsSplit ((env.gitLog path).getD "") '|').length < 4
    · simp [gitOkEntry, hl, h4]
    · simp [gitOkEntry, hl, h4]
  · simp [gitOkEntry, hl]

theorem checkGitAux_fst (env : Env) :
    ∀ (l : List (String × String)) (cwd : String),
      (checkGitAux env l cwd).1 =
        l.filterMap (fun pr => checkGitEntry env pr.1 pr.2) := by
  intro l
  induction l with
  | nil => intro cwd; simp [checkGitAux]
  | cons pr rest ih =>
    intro cwd
    obtain ⟨name, path⟩ := pr
    by_cases hex : env.pathExists path = true
    · by_cases hch : env.chdirOk path = true
      · simp [checkGitAux, checkGitEntry, hex, hch, ih]
      · simp [checkGitAux, checkGitEntry, hex, hch, ih]
    · simp [checkGitAux, checkGitEntry, hex, ih]

theorem checkGitAux_names (env : Env) :
    ∀ (l : List (String × String)) (cwd : String),
      ((checkGitAux env l cwd).1).map Prod.fst =
        (l.filter (fun pr => env.pathExists pr.2)).map Prod.fst := by
  intro l
  induction l with
  | nil => intro cwd; simp [checkGitAux]
  | cons pr rest ih =>
    intro cwd
    obtain ⟨name, path⟩ := pr
    by_cases hex : env.pathExists path = true
    · by_cases hch : env.chdirOk path = true
      · simp [checkGitAux, hex, hch, ih, List.filter_cons, gitOkEntry_fst]
      · simp [checkGitAux, hex, hch, ih, List.filter_cons]
    · simp [checkGitAux, hex, ih, List.filter_cons]

theorem checkGitAux_snd (env : Env) :
    ∀ (l : List (String × String)) (cwd : String),
      (∀ pr ∈ l, env.pathExists pr.2 = true → env.chdirOk pr.2 = true) →
      (checkGitAux env l cwd).2 =
        ((l.filter (fun pr => env.pathExists pr.2)).map Prod.snd).getLastD cwd := by
  intro l
  induction l with
  | nil => intro cwd _; simp [checkGitAux]
  | cons pr rest ih =>
    intro cwd h
    obtain ⟨name, path⟩ := pr
    by_cases hex : env.pathExists path = true
    · have hch : env.chdirOk path = true :=
        h (name, path) (List.mem_cons_self _ _) hex
      have ihr := ih path (fun q hq => h q (List.mem_cons_of_mem _ hq))
      have hstep : (checkGitAux env ((name, path) :: rest) cwd).2 =
          (checkGitAux env rest path).2 := by
        simp only [checkGitAux, hex, hch, eq_self_iff_true, if_true]
      rw [hstep, ihr]
      simp only [List.filter_cons, hex, eq_self_iff_true, if_true,
        List.map_cons, List.getLastD_cons]
    · have ihr := ih cwd (fun q hq => h q (List.mem_cons_of_mem _ hq))
      have hstep : (checkGitAux env ((name, path) :: rest) cwd).2 =
          (checkGitAux env rest cwd).2 := by
        simp only [checkGitAux, hex, Bool.false_eq_true, if_false]
      rw [hstep, ihr]
      simp only [List.filter_cons, hex, Bool.false_eq_true, if_false]

theorem detect_session_not_truthy (env : Env) (n : String)
    (h : jsTruthyOpt (env.capture n) = false) :
    ∀ e ∈ detectStuckPrompts env, e.session ≠ n := by
  intro e he heq
  unfold detectStuckPrompts at he
  by_cases ht : jsTruthyOpt env.listSessions = true
  · rw [if_pos ht] at he
    obtain ⟨line, _, hf⟩ := List.mem_filterMap.mp he
    dsimp only at hf
    cases hfp : firstStuckPattern stuckPatterns
        (env.capture ((jsSplit line ':').headD "")) with
    | none => rw [hfp] at hf; exact Option.noConfusion hf
    | some p =>
      rw [hfp] at hf
      have hinj := Option.some.inj hf
      have hm : matchesContent
          (env.capture ((jsSplit line ':').headD "")) p = true :=
        List.find?_some hfp
      have hsn : (jsSplit line ':').headD "" = n := by
        rw [← heq, ← hinj]
      rw [hsn] at hm
      simp only [matchesContent, Bool.and_eq_true] at hm
      rw [h] at hm
      exact Bool.false_ne_true hm.1
  · rw [if_neg ht] at he
    simp at he

/-! Claim theorems. -/

/-- C1 (counterexample): a run with no stuck sessions and a successful
MCP check but one git entry carrying an error is still labelled
`excellent` by the code, refuting the claim that a git-inspection error
forces `needs-attention`. -/
theorem C1_counterexample :
    (generateMonitoringReport envGitErrOnly).stuckSessions = [] ∧
      (generateMonitoringReport envGitErrOnly).mcpSuccess = true ∧
      ("proj", GitEntry.err) ∈ (generateMonitoringReport envGitErrOnly).gitProgress ∧
      (generateMonitoringReport envGitErrOnly).overallHealth = "excellent" := by
  decide

/-- C1 (amended): `overallHealth` equals `excellent` iff no session was
initially detected stuck and the MCP status check succeeded; git errors
and recovery outcomes play no part (source line 277). -/
theorem C1_health_formula (env : Env) :
    (generateMonitoringReport env).overallHealth =
      (if detectStuckPrompts env = [] ∧ runMCPMonitoring env "detailed" = true
       then "excellent" else "needs-attention") := by
  simp only [generateMonitoringReport]
  by_cases hs : detectStuckPrompts env = []
  · by_cases hm : runMCPMonitoring env "detailed" = true
    · simp [hs, hm]
    · simp [hs, hm]
  · have hlen : (detectStuckPrompts env).length ≠ 0 := by
      simpa [List.length_eq_zero] using hs
    simp [hs, hlen]

/-- C2 (counterexample): the single stalled session resolves on the
second fallback input (two recovery attempts, treated as fixed), yet the
token-waste alert is still invoked with that session in its payload,
refuting the claim that no escalation is emitted when every stalled
session is recovered. -/
theorem C2_counterexample :
    (generateMonitoringReport envRecoverSecond).recoveries =
        [("work", (["y", "yes"], true))] ∧
      (generateMonitoringReport envRecoverSecond).alert =
        some [("work", "Do you want to proceed?")] := by
  decide

/-- C2 (amended): the alert is invoked at most once per run (a single
optional batched payload), and it is invoked exactly when the set of
initially detected stuck sessions is non-empty, regardless of recovery
outcomes; the payload batches every detected session with its pattern
(source lines 258-261 pass the pre-recovery list). -/
theorem C2_alert_formula (env : Env) :
    (generateMonitoringReport env).alert =
      (if detectStuckPrompts env = [] then none
       else some ((detectStuckPrompts env).map (fun s => (s.session, s.pattern)))) := by
  simp only [generateMonitoringReport]
  by_cases hs : detectStuckPrompts env = []
  · simp [hs]
  · have hpos : 0 < (detectStuckPrompts env).length := List.length_pos.mpr hs
    simp [hs, hpos]

/-- C3 (counterexample): a tracked project whose path does not exist
produces no git entry at all (the loop at source lines 103-105 only
logs), refuting the claim that it yields an entry with the error field
set. -/
theorem C3_counterexample :
    (checkGitProgress envMissingPath).1 = [] ∧
      (generateMonitoringReport envMissingPath).projectsChecked = 0 ∧
      (generateMonitoringReport envMissingPath).overallHealth = "excellent" := by
  decide

/-- C3 (amended): the report contains exactly one git entry, in registry
order, per tracked project whose path exists — no duplicates and no
omissions among those — while projects with missing paths are omitted
entirely; the run still completes and produces a report (the generator
is total). -/
theorem C3_git_entries (env : Env) :
    ((generateMonitoringReport env).gitProgress).map Prod.fst =
      (env.projectPaths.filter (fun pr => env.pathExists pr.2)).map Prod.fst := by
  simp only [generateMonitoringReport]
  exact checkGitAux_names env env.projectPaths env.initialCwd

/-- C4: for every snapshot content and every ordered signature list, if
a signature matches and every earlier signature does not, classification
returns that earliest matching signature, independently of the
signatures after it (the break at source line 149 stops the
iteration). -/
theorem C4_first_match (l₁ l₂ : List String) (p c : String)
    (hp : matchesContent (some c) p = true)
    (h₁ : ∀ q ∈ l₁, matchesContent (some c) q = false) :
    firstStuckPattern (l₁ ++ p :: l₂) (some c) = some p :=
  find?_append_first _ l₁ p l₂ hp h₁

/-- C4 (witness): with two matching signatures in the list, the
earliest-ordered one is returned. -/
theorem C4_first_match_witness :
    matchesContent (some "Continue? (y/n) Please confirm") "Continue? (y/n)" = true ∧
      matchesContent (some "Continue? (y/n) Please confirm") "Please confirm" = true ∧
      firstStuckPattern
          (["Press any key to continue"] ++ "Continue? (y/n)" :: ["Please confirm"])
          (some "Continue? (y/n) Please confirm") = some "Continue? (y/n)" :=
  ⟨by decide, by decide,
   C4_first_match ["Press any key to continue"] ["Please confirm"]
     "Continue? (y/n)" "Continue? (y/n) Please confirm" (by decide) (by decide)⟩

/-- C5 (counterexample): one session whose capture fails and one whose
capture is empty produce no report record at all — there is no Unknown
outcome; both are silently omitted from `stuckSessions`, refuting the
claim that the report records an Unknown entry for such units. -/
theorem C5_counterexample :
    detectStuckPrompts envCaptureFails = [] ∧
      (generateMonitoringReport envCaptureFails).stuckPrompts = 0 := by
  decide

/-- C5 (amended): a session whose capture fails or returns empty content
is never classified as stuck (it never appears in `stuckSessions`), but
the code records no Unknown outcome for it: the session is omitted from
the per-session records exactly like a healthy one. -/
theorem C5_no_stuck_on_empty (env : Env) (n : String)
    (h : jsTruthyOpt (env.capture n) = false) :
    ((detectStuckPrompts env).all (fun e => e.session != n)) = true := by
  rw [List.all_eq_true]
  intro e he
  have hne := detect_session_not_truthy env n h e he
  simpa using hne

/-- C5 (witness): the amended theorem applied to a concrete run whose
only session has a failing capture. -/
theorem C5_no_stuck_on_empty_witness :
    jsTruthyOpt (envCaptureNull.capture "s") = false ∧
      ((detectStuckPrompts envCaptureNull).all (fun e => e.session != "s")) = true :=
  ⟨by decide, C5_no_stuck_on_empty envCaptureNull "s" (by decide)⟩

/-- C6: for every session entering recovery, the number of injected
fallback inputs is at most the length of the fixed fallback list, and
once a re-classification resolves the session at attempt `k` (every
earlier attempt still stuck), exactly `k + 1` attempts are recorded —
the loop short-circuits (source lines 191-201). -/
theorem C6_bounded_short_circuit (recap : Nat → Option String) (pat : String) :
    (runFixes recap pat).1.length ≤ fixes.length ∧
      (∀ k, k < fixes.length →
        (∀ j, j < k → stillStuck (recap j) pat = true) →
        stillStuck (recap k) pat = false →
        (runFixes recap pat).1.length = k + 1) := by
  constructor
  · exact runFixesAux_length_le recap pat fixes 0
  · intro k hk hall hres
    have h := runFixesAux_resolve recap pat fixes 0 k hk
      (fun j hj => by simpa using hall j hj) (by simpa using hres)
    exact h.1

/-- C6 (witness): a session still stuck after the first input and
resolved by the second records exactly two attempts. -/
theorem C6_bounded_short_circuit_witness :
    (runFixes recapSecondTry "Please confirm").1.length ≤ fixes.length ∧
      (runFixes recapSecondTry "Please confirm").1.length = 1 + 1 :=
  ⟨(C6_bounded_short_circuit recapSecondTry "Please confirm").1,
   (C6_bounded_short_circuit recapSecondTry "Please confirm").2 1 (by decide)
     (by decide) (by decide)⟩

/-- C7 (counterexample): when the very first re-capture fails (session
vanished), the attempt loop stops after one attempt with the session
treated as FIXED (the break at source line 199, outcome flag true),
not as still stuck, refuting the claim that the outcome is StillStuck. -/
theorem C7_counterexample :
    runFixes (fun _ => none) "Do you want to proceed?" = (["y"], true) := by
  decide

/-- C7 (amended): a mid-attempt capture failure terminates that
attempt loop early, but with the session treated as fixed (the falsy
re-capture passes the break test), not StillStuck; and each recovery
outcome is a function of its own session data and its own capture
stream only, so the failure does not affect other sessions. -/
theorem C7_vanish_fixed_isolated :
    (∀ (recap : Nat → Option String) (pat : String) (k : Nat),
      k < fixes.length → recap k = none →
      (∀ j, j < k → stillStuck (recap j) pat = true) →
      (runFixes recap pat).1.length = k + 1 ∧ (runFixes recap pat).2 = true) ∧
    (∀ (recap : String → Nat → Option String) (sts : List StuckSession)
        (st : StuckSession), st ∈ sts →
      (st.session, runFixes (recap st.session) st.pattern) ∈
        autoFixStuckPrompts recap sts) := by
  constructor
  · intro recap pat k hk hnone hall
    have hres : stillStuck (recap k) pat = false := by
      rw [hnone]; rfl
    exact runFixesAux_resolve recap pat fixes 0 k hk
      (fun j hj => by simpa using hall j hj) (by simpa using hres)
  · intro recap sts st hmem
    exact List.mem_map_of_mem _ hmem

/-- C7 (witness): a session stuck on attempt 0 whose capture vanishes on
attempt 1 stops after two attempts flagged as fixed, and its outcome is
the entry recorded for it by the per-session recovery pass. -/
theorem C7_vanish_fixed_isolated_witness :
    ((runFixes recapVanish "Proceed with").1.length = 1 + 1 ∧
        (runFixes recapVanish "Proceed with").2 = true) ∧
      ("w", runFixes recapVanish "Proceed with") ∈
        autoFixStuckPrompts (fun _ => recapVanish)
          [⟨"w", "Proceed with", "ctx"⟩] :=
  ⟨C7_vanish_fixed_isolated.1 recapVanish "Proceed with" 1 (by decide)
      (by decide) (by decide),
   C7_vanish_fixed_isolated.2 (fun _ => recapVanish)
      [⟨"w", "Proceed with", "ctx"⟩] ⟨"w", "Proceed with", "ctx"⟩
      (by decide)⟩

/-- C8 (counterexample): a project whose path exists and whose chdir
succeeds but whose three git inspections all fail yields an entry with
default values (no commit, 0 pending changes, branch unknown) and NO
error field, refuting the claim that a failed inspection sets the error
field. -/
theorem C8_counterexample :
    (checkGitProgress envGitCmdsFail).1 =
      [("a", GitEntry.ok "/a" none 0 "unknown" (some "unknown"))] := by
  decide

/-- C8 (amended): failed git inspections are absorbed into default
values without setting the error field — the error field is set only
when chdir into the project throws — and each entry is a function of
that project alone (the entry list is a per-project filterMap), so one
project's failure does not abort or alter the others. -/
theorem C8_inspection_defaults (env : Env) :
    (∀ name path, env.pathExists path = true → env.chdirOk path = true →
      env.gitLog path = none → env.gitStatus path = none →
      env.gitBranch path = none →
      checkGitEntry env name path =
        some (name, GitEntry.ok path none 0 "unknown" (some "unknown"))) ∧
    (checkGitProgress env).1 =
      env.projectPaths.filterMap (fun pr => checkGitEntry env pr.1 pr.2) := by
  constructor
  · intro name path hex hch hlog hstat hbr
    simp [checkGitEntry, gitOkEntry, hex, hch, hlog, hstat, hbr,
      pendingCount, branchOr, jsTruthyOpt]
  · exact checkGitAux_fst env env.projectPaths env.initialCwd

/-- C8 (witness): the amended theorem applied to a run with one
inspectable project whose git commands all fail and one project with a
missing path; the first still gets its default entry. -/
theorem C8_inspection_defaults_witness :
    checkGitEntry envGitMixed "a" "/a" =
        some ("a", GitEntry.ok "/a" none 0 "unknown" (some "unknown")) ∧
      (checkGitProgress envGitMixed).1 =
        envGitMixed.projectPaths.filterMap
          (fun pr => checkGitEntry envGitMixed pr.1 pr.2) :=
  ⟨(C8_inspection_defaults envGitMixed).1 "a" "/a" (by decide) (by decide)
      (by decide) (by decide) (by decide),
   (C8_inspection_defaults envGitMixed).2⟩

/-- C9 (counterexample): in git mode the process exits 0 even though
the same run data yields needs-attention, and in stuck mode the exit
status is the stuck-session count (here 2) — the exit status is
mode-specific, refuting the claim that it is determined solely by
`overallHealth` in every mode. -/
theorem C9_counterexample :
    mainExitCode envTwoStuck ["git"] = 0 ∧
      (generateMonitoringReport envTwoStuck).overallHealth = "needs-attention" ∧
      mainExitCode envTwoStuck ["stuck"] = 2 := by
  decide

/-- C9 (amended): only the full/default mode derives the exit status
from `overallHealth` (0 iff excellent, else 1); quick mode exits on the
MCP result, git mode always exits 0, and stuck mode exits with the
stuck-session count mod 256 (source lines 317-348). -/
theorem C9_exit_by_mode (env : Env) :
    mainExitCode env ["full"] =
        (if (generateMonitoringReport env).overallHealth = "excellent"
         then 0 else 1) ∧
      mainExitCode env ["git"] = 0 ∧
      mainExitCode env ["stuck"] = (detectStuckPrompts env).length % 256 ∧
      mainExitCode env ["quick"] =
        (if runMCPMonitoring env "quick" = true then 0 else 1) ∧
      mainExitCode env [] = mainExitCode env ["full"] := by
  refine ⟨?_, rfl, rfl, ?_, rfl⟩
  · by_cases h : (generateMonitoringReport env).overallHealth = "excellent"
    · simp [mainExitCode, jsTruthyStr, h]
    · simp [mainExitCode, jsTruthyStr, h]
  · by_cases h : runMCPMonitoring env "quick" = true
    · simp [mainExitCode, jsTruthyStr, h]
    · simp [mainExitCode, jsTruthyStr, h]

/-- C10: running the git-progress phase chdirs into each tracked project
whose path exists (chdir on an existing directory succeeding) and never
restores the original working directory, so the final working directory
is the path of the last tracked project that existed (the initial one
when none did). -/
theorem C10_cwd_mutation (env : Env)
    (h : ∀ pr ∈ env.projectPaths,
      env.pathExists pr.2 = true → env.chdirOk pr.2 = true) :
    (checkGitProgress env).2 =
      ((env.projectPaths.filter (fun pr => env.pathExists pr.2)).map
        Prod.snd).getLastD env.initialCwd :=
  checkGitAux_snd env env.projectPaths env.initialCwd h

/-- C10 (witness): with projects at two existing paths and a third
missing, the run ends with the working directory at the second existing
path, not the initial directory. -/
theorem C10_cwd_mutation_witness :
    (checkGitProgress envThreeProjects).2 =
        ((envThreeProjects.projectPaths.filter
          (fun pr => envThreeProjects.pathExists pr.2)).map
            Prod.snd).getLastD envThreeProjects.initialCwd ∧
      (checkGitProgress envThreeProjects).2 = "/b" :=
  ⟨C10_cwd_mutation envThreeProjects (by decide), by decide⟩

end EnhancedMonitoring
